import Mathlib

/-!
Verification of the request-dispatch layer of `vscode_mcp_integration.py`
(`VSCodeMCPServer.handle_request`).

A Python request dictionary with string values is embedded as an association
list of key/value string pairs; `Request.get` mirrors `dict.get`.  The external
agent capability (`self.agent.run`) is embedded as a pure oracle of type
`String → String`; `handle_request` returns, alongside the response mapping,
the exact list of instruction strings passed to the agent, so that the number
of agent calls and the rendered instructions are part of the observable result.
A `None` agent (uninitialized server) makes a recognized-action branch fail
with an `attributeError`, mirroring Python dereferencing `None`.
-/

/-- A request dictionary: keys to string values, first binding wins. -/
abbrev Request := List (String × String)

/-- `dict.get(k)`: the value bound to `k`, or `none` when absent. -/
def Request.get (r : Request) (k : String) : Option String :=
  (r.find? (fun p => p.1 == k)).map Prod.snd

/-- `dict.get(k, d)`: the value bound to `k`, or the default `d` when absent. -/
def Request.getD (r : Request) (k d : String) : String :=
  (Request.get r k).getD d

/-- Python `str()` of an `Optional[str]`: `None` prints as the text `None`. -/
def pyStr : Option String → String
  | none => "None"
  | some s => s

/-- Exceptions observable at this layer (dereferencing an uninitialized agent). -/
inductive PyError where
  | attributeError : String → PyError
deriving Repr, DecidableEq

/-- A response dictionary, as returned by `handle_request`. -/
abbrev Response := List (String × String)

/-- The server: an optional agent capability (set by `initialize`) and a model id. -/
structure VSCodeMCPServer where
  agent : Option (String → String)
  model : String

/-- Embedding of `VSCodeMCPServer.handle_request`.  Returns the response
dictionary together with the trace of instruction strings sent to the agent.
An uninitialized agent (`none`) on a branch that calls `self.agent.run`
raises an `attributeError`, as dereferencing `None` would in Python. -/
def VSCodeMCPServer.handle_request (s : VSCodeMCPServer) (request : Request) :
    Except PyError (Response × List String) :=
  let action := Request.get request "action"
  if action = some "complete_code" then
    let context := Request.getD request "context" ""
    let cursor_position := Request.getD request "cursor" ""
    let instr := "Complete this code at cursor position:\n" ++ context ++
      "\nCursor: " ++ cursor_position
    match s.agent with
    | none => .error (.attributeError "run")
    | some agent => .ok ([("completion", agent instr)], [instr])
  else if action = some "explain_code" then
    let code := Request.getD request "code" ""
    let instr := "Explain this code:\n```\n" ++ code ++ "\n```"
    match s.agent with
    | none => .error (.attributeError "run")
    | some agent => .ok ([("explanation", agent instr)], [instr])
  else if action = some "fix_error" then
    let error := Request.getD request "error" ""
    let code := Request.getD request "code" ""
    let instr := "Fix this error:\nError: " ++ error ++ "\nCode:\n```\n" ++
      code ++ "\n```"
    match s.agent with
    | none => .error (.attributeError "run")
    | some agent => .ok ([("fix", agent instr)], [instr])
  else if action = some "refactor" then
    let code := Request.getD request "code" ""
    let goal := Request.getD request "goal" "improve readability and performance"
    let instr := "Refactor this code to " ++ goal ++ ":\n```\n" ++ code ++ "\n```"
    match s.agent with
    | none => .error (.attributeError "run")
    | some agent => .ok ([("refactored", agent instr)], [instr])
  else if action = some "generate_tests" then
    let code := Request.getD request "code" ""
    let framework := Request.getD request "framework" "pytest"
    let instr := "Generate " ++ framework ++ " tests for:\n```\n" ++ code ++ "\n```"
    match s.agent with
    | none => .error (.attributeError "run")
    | some agent => .ok ([("tests", agent instr)], [instr])
  else
    .ok ([("error", "Unknown action: " ++ pyStr action)], [])

/-- The action → response-key table of §6 of the specification. -/
def actionKey (a : String) : Option String :=
  if a = "complete_code" then some "completion"
  else if a = "explain_code" then some "explanation"
  else if a = "fix_error" then some "fix"
  else if a = "refactor" then some "refactored"
  else if a = "generate_tests" then some "tests"
  else none

/-- Rendered instruction for `complete_code`. -/
def completeInstr (r : Request) : String :=
  "Complete this code at cursor position:\n" ++ Request.getD r "context" "" ++
    "\nCursor: " ++ Request.getD r "cursor" ""

/-- Rendered instruction for `explain_code`. -/
def explainInstr (r : Request) : String :=
  "Explain this code:\n```\n" ++ Request.getD r "code" "" ++ "\n```"

/-- Rendered instruction for `fix_error`. -/
def fixInstr (r : Request) : String :=
  "Fix this error:\nError: " ++ Request.getD r "error" "" ++ "\nCode:\n```\n" ++
    Request.getD r "code" "" ++ "\n```"

/-- Rendered instruction for `refactor`. -/
def refactorInstr (r : Request) : String :=
  "Refactor this code to " ++
    Request.getD r "goal" "improve readability and performance" ++ ":\n```\n" ++
    Request.getD r "code" "" ++ "\n```"

/-- Rendered instruction for `generate_tests`. -/
def testsInstr (r : Request) : String :=
  "Generate " ++ Request.getD r "framework" "pytest" ++ " tests for:\n```\n" ++
    Request.getD r "code" "" ++ "\n```"

/-- The instruction rendered for a recognized action on a request. -/
def instrFor (a : String) (r : Request) : String :=
  if a = "complete_code" then completeInstr r
  else if a = "explain_code" then explainInstr r
  else if a = "fix_error" then fixInstr r
  else if a = "refactor" then refactorInstr r
  else if a = "generate_tests" then testsInstr r
  else ""

/-- The request fields each recognized action reads. -/
def relevantFields (a : String) : List String :=
  if a = "complete_code" then ["context", "cursor"]
  else if a = "explain_code" then ["code"]
  else if a = "fix_error" then ["error", "code"]
  else if a = "refactor" then ["code", "goal"]
  else if a = "generate_tests" then ["code", "framework"]
  else []

lemma hr_complete (s : VSCodeMCPServer) (f : String → String) (r : Request)
    (hag : s.agent = some f)
    (hact : Request.get r "action" = some "complete_code") :
    s.handle_request r =
      .ok ([("completion", f (completeInstr r))], [completeInstr r]) := by
  simp only [VSCodeMCPServer.handle_request, hact, hag, completeInstr, reduceIte]

lemma hr_explain (s : VSCodeMCPServer) (f : String → String) (r : Request)
    (hag : s.agent = some f)
    (hact : Request.get r "action" = some "explain_code") :
    s.handle_request r =
      .ok ([("explanation", f (explainInstr r))], [explainInstr r]) := by
  simp only [VSCodeMCPServer.handle_request, hact, hag, explainInstr,
    Option.some.injEq, String.reduceEq, reduceIte]

lemma hr_fix (s : VSCodeMCPServer) (f : String → String) (r : Request)
    (hag : s.agent = some f)
    (hact : Request.get r "action" = some "fix_error") :
    s.handle_request r = .ok ([("fix", f (fixInstr r))], [fixInstr r]) := by
  simp only [VSCodeMCPServer.handle_request, hact, hag, fixInstr,
    Option.some.injEq, String.reduceEq, reduceIte]

lemma hr_refactor (s : VSCodeMCPServer) (f : String → String) (r : Request)
    (hag : s.agent = some f)
    (hact : Request.get r "action" = some "refactor") :
    s.handle_request r =
      .ok ([("refactored", f (refactorInstr r))], [refactorInstr r]) := by
  simp only [VSCodeMCPServer.handle_request, hact, hag, refactorInstr,
    Option.some.injEq, String.reduceEq, reduceIte]

lemma hr_tests (s : VSCodeMCPServer) (f : String → String) (r : Request)
    (hag : s.agent = some f)
    (hact : Request.get r "action" = some "generate_tests") :
    s.handle_request r = .ok ([("tests", f (testsInstr r))], [testsInstr r]) := by
  simp only [VSCodeMCPServer.handle_request, hact, hag, testsInstr,
    Option.some.injEq, String.reduceEq, reduceIte]

lemma hr_unknown (s : VSCodeMCPServer) (r : Request) (a : String)
    (hact : Request.get r "action" = some a) (hun : actionKey a = none) :
    s.handle_request r = .ok ([("error", "Unknown action: " ++ a)], []) := by
  simp only [actionKey] at hun
  split at hun
  · exact absurd hun (by simp)
  · split at hun
    · exact absurd hun (by simp)
    · split at hun
      · exact absurd hun (by simp)
      · split at hun
        · exact absurd hun (by simp)
        · split at hun
          · exact absurd hun (by simp)
          · rename_i h1 h2 h3 h4 h5
            simp only [VSCodeMCPServer.handle_request, hact, Option.some.injEq,
              pyStr, reduceIte, h1, h2, h3, h4, h5, if_false]

lemma hr_noaction (s : VSCodeMCPServer) (r : Request)
    (hact : Request.get r "action" = none) :
    s.handle_request r = .ok ([("error", "Unknown action: None")], []) := by
  simp [VSCodeMCPServer.handle_request, hact, pyStr]

lemma actionKey_inv (a k : String) (hk : actionKey a = some k) :
    (a = "complete_code" ∧ k = "completion") ∨
    (a = "explain_code" ∧ k = "explanation") ∨
    (a = "fix_error" ∧ k = "fix") ∨
    (a = "refactor" ∧ k = "refactored") ∨
    (a = "generate_tests" ∧ k = "tests") := by
  simp only [actionKey] at hk
  split at hk
  · exact Or.inl ⟨by assumption, by simpa using hk.symm⟩
  split at hk
  · exact Or.inr (Or.inl ⟨by assumption, by simpa using hk.symm⟩)
  split at hk
  · exact Or.inr (Or.inr (Or.inl ⟨by assumption, by simpa using hk.symm⟩))
  split at hk
  · exact Or.inr (Or.inr (Or.inr (Or.inl ⟨by assumption, by simpa using hk.symm⟩)))
  split at hk
  · exact Or.inr (Or.inr (Or.inr (Or.inr ⟨by assumption, by simpa using hk.symm⟩)))
  · exact absurd hk (by simp)

lemma hr_recognized (s : VSCodeMCPServer) (f : String → String) (r : Request)
    (a k : String) (hag : s.agent = some f)
    (hact : Request.get r "action" = some a) (hk : actionKey a = some k) :
    s.handle_request r = .ok ([(k, f (instrFor a r))], [instrFor a r]) := by
  rcases actionKey_inv a k hk with ⟨ha, hk2⟩ | ⟨ha, hk2⟩ | ⟨ha, hk2⟩ |
      ⟨ha, hk2⟩ | ⟨ha, hk2⟩ <;> subst ha <;> subst hk2
  · simpa [instrFor] using hr_complete s f r hag hact
  · simpa [instrFor] using hr_explain s f r hag hact
  · simpa [instrFor] using hr_fix s f r hag hact
  · simpa [instrFor] using hr_refactor s f r hag hact
  · simpa [instrFor] using hr_tests s f r hag hact

/-- C1: for every recognized action value and any combination of present or
absent optional fields, `handle_request` returns a mapping with exactly one
key — the key named for that action in the §6 table — whose value is the
agent's textual reply, verbatim, on the rendered instruction. -/
theorem c1_recognized_single_key (s : VSCodeMCPServer) (f : String → String)
    (r : Request) (a k : String) (hag : s.agent = some f)
    (hact : Request.get r "action" = some a) (hk : actionKey a = some k) :
    s.handle_request r = .ok ([(k, f (instrFor a r))], [instrFor a r]) :=
  hr_recognized s f r a k hag hact hk

/-- Witness for C1 at a concrete recognized action (`complete_code`). -/
theorem c1_witness :
    (VSCodeMCPServer.mk (some (fun _ => "reply")) "m").handle_request
        [("action", "complete_code")] =
      .ok ([("completion",
            (fun _ => "reply")
              (instrFor "complete_code" [("action", "complete_code")]))],
        [instrFor "complete_code" [("action", "complete_code")]]) :=
  c1_recognized_single_key (VSCodeMCPServer.mk (some (fun _ => "reply")) "m")
    (fun _ => "reply") [("action", "complete_code")] "complete_code"
    "completion" rfl rfl rfl

/-- C2: for every request whose action value is not one of the five
recognized kinds, `handle_request` returns exactly
`[("error", "Unknown action: " ++ a)]` with the unrecognized value
interpolated, raises no exception (the result is `.ok`), and performs zero
agent calls (empty call trace). -/
theorem c2_unknown_action (s : VSCodeMCPServer) (r : Request) (a : String)
    (hact : Request.get r "action" = some a) (hun : actionKey a = none) :
    s.handle_request r = .ok ([("error", "Unknown action: " ++ a)], []) :=
  hr_unknown s r a hact hun

/-- Witness for C2 at `action = "bogus_action"` on an uninitialized server. -/
theorem c2_witness :
    (VSCodeMCPServer.mk none "m").handle_request [("action", "bogus_action")] =
      .ok ([("error", "Unknown action: " ++ "bogus_action")], []) :=
  c2_unknown_action _ _ _ rfl rfl

/-- The single-quote character as a one-character string (code point 39). -/
def squote : String := String.singleton (Char.ofNat 39)

/-- The example `error` field from the §8 scenario:
`TypeError: unsupported operand type(s) for +: 'int' and 'str'`. -/
def exampleErrorField : String :=
  "TypeError: unsupported operand type(s) for +: " ++ squote ++ "int" ++ squote ++
    " and " ++ squote ++ "str" ++ squote

/-- The example `code` field from the §8 scenario (the `calculate_total`
function body, with `item['price']` spelled via `squote`). -/
def exampleCodeField : String :=
  "def calculate_total(items):\n    total = 0\n    for item in items:\n" ++
    "        total = total + item[" ++ squote ++ "price" ++ squote ++ "]\n    return total"

/-- The §8 example request for `fix_error`. -/
def exampleFixRequest : Request :=
  [("action", "fix_error"), ("error", exampleErrorField),
    ("code", exampleCodeField)]

/-- The instruction string the spec requires for the §8 example, written out
as the spec's literal: `Fix this error:\nError: <error>\nCode:\n...`. -/
def expectedFixInstruction : String :=
  "Fix this error:\nError: " ++ exampleErrorField ++ "\nCode:\n```\n" ++
    exampleCodeField ++ "\n```"

/-- C3: on the §8 example request, the instruction passed to the agent
literally equals the spec's expected string and the response is exactly
`[("fix", <agent reply on that instruction>)]`, for any agent and model. -/
theorem c3_fix_error_example (f : String → String) (m : String) :
    (VSCodeMCPServer.mk (some f) m).handle_request exampleFixRequest =
      .ok ([("fix", f expectedFixInstruction)], [expectedFixInstruction]) := by
  have h := hr_fix (VSCodeMCPServer.mk (some f) m) f exampleFixRequest rfl rfl
  rw [h]
  rfl

/-- C4 counterexample: on a concrete request with no `action` key, an
uninitialized server returns a normal `.ok` response mapping — it does not
fail with any exception, contradicting the claim that `handle_request`
fails with an `InvalidRequestError` when `action` is absent. -/
theorem c4_counterexample :
    (VSCodeMCPServer.mk none "m").handle_request [("code", "x")] =
        .ok ([("error", "Unknown action: None")], []) ∧
      ((VSCodeMCPServer.mk none "m").handle_request [("code", "x")]).isOk = true :=
  ⟨rfl, rfl⟩

/-- C4 (amended): for every request in which the `action` field is absent,
`handle_request` does not fail; it returns the normal response mapping
`[("error", "Unknown action: None")]` (and makes no agent call). -/
theorem c4_absent_action_no_failure (s : VSCodeMCPServer) (r : Request)
    (hact : Request.get r "action" = none) :
    (s.handle_request r).isOk = true ∧
      s.handle_request r = .ok ([("error", "Unknown action: None")], []) := by
  have h := hr_noaction s r hact
  exact ⟨by rw [h]; rfl, h⟩

/-- Witness for the amended C4 on the empty request. -/
theorem c4_witness :
    ((VSCodeMCPServer.mk none "m").handle_request []).isOk = true ∧
      (VSCodeMCPServer.mk none "m").handle_request [] =
        .ok ([("error", "Unknown action: None")], []) :=
  c4_absent_action_no_failure (VSCodeMCPServer.mk none "m") [] rfl

/-- C5: unset optional fields take their fixed defaults.  For `refactor`
with no `goal`, the rendered instruction is
`"Refactor this code " ++ "to improve readability and performance:" ++ …`,
exhibiting the required literal substring; for `generate_tests` with no
`framework`, the instruction is rendered with `pytest`. -/
theorem c5_defaults (s₁ s₂ : VSCodeMCPServer) (f g : String → String)
    (r₁ r₂ : Request) (hag₁ : s₁.agent = some f) (hag₂ : s₂.agent = some g)
    (hact₁ : Request.get r₁ "action" = some "refactor")
    (hgoal : Request.get r₁ "goal" = none)
    (hact₂ : Request.get r₂ "action" = some "generate_tests")
    (hfw : Request.get r₂ "framework" = none) :
    s₁.handle_request r₁ =
      .ok ([("refactored",
            f ("Refactor this code " ++
              "to improve readability and performance:" ++
              ("\n```\n" ++ Request.getD r₁ "code" "" ++ "\n```")))],
        ["Refactor this code " ++ "to improve readability and performance:" ++
          ("\n```\n" ++ Request.getD r₁ "code" "" ++ "\n```")]) ∧
    s₂.handle_request r₂ =
      .ok ([("tests",
            g ("Generate pytest tests for:\n```\n" ++
              Request.getD r₂ "code" "" ++ "\n```"))],
        ["Generate pytest tests for:\n```\n" ++ Request.getD r₂ "code" "" ++
          "\n```"]) := by
  constructor
  · have h := hr_refactor s₁ f r₁ hag₁ hact₁
    rw [h]
    have hg : Request.getD r₁ "goal" "improve readability and performance" =
        "improve readability and performance" := by
      simp [Request.getD, hgoal]
    unfold refactorInstr
    rw [hg]
    simp only [← String.append_assoc]
    rfl
  · have h := hr_tests s₂ g r₂ hag₂ hact₂
    rw [h]
    have hf : Request.getD r₂ "framework" "pytest" = "pytest" := by
      simp [Request.getD, hfw]
    unfold testsInstr
    rw [hf]
    rfl

/-- Witness for C5 on concrete `refactor` and `generate_tests` requests
with the optional `goal` and `framework` fields absent. -/
theorem c5_witness :
    (VSCodeMCPServer.mk (some (fun _ => "out")) "m").handle_request
        [("action", "refactor")] =
      .ok ([("refactored",
            (fun _ => "out")
              ("Refactor this code " ++
                "to improve readability and performance:" ++
                ("\n```\n" ++
                  Request.getD [("action", "refactor")] "code" "" ++ "\n```")))],
        ["Refactor this code " ++ "to improve readability and performance:" ++
          ("\n```\n" ++ Request.getD [("action", "refactor")] "code" "" ++
            "\n```")]) ∧
    (VSCodeMCPServer.mk (some (fun _ => "out2")) "m").handle_request
        [("action", "generate_tests"), ("code", "y")] =
      .ok ([("tests",
            (fun _ => "out2")
              ("Generate pytest tests for:\n```\n" ++
                Request.getD [("action", "generate_tests"), ("code", "y")]
                  "code" "" ++ "\n```"))],
        ["Generate pytest tests for:\n```\n" ++
          Request.getD [("action", "generate_tests"), ("code", "y")]
            "code" "" ++ "\n```"]) :=
  c5_defaults (VSCodeMCPServer.mk (some (fun _ => "out")) "m")
    (VSCodeMCPServer.mk (some (fun _ => "out2")) "m")
    (fun _ => "out") (fun _ => "out2") [("action", "refactor")]
    [("action", "generate_tests"), ("code", "y")] rfl rfl rfl rfl rfl rfl

/-- C6: every invocation of `handle_request` with a recognized action and an
initialized agent returns normally and sends exactly one instruction to the
agent — the call trace is the one-element list `[instrFor a r]`: no retries,
no caching, no additional calls.  The embedding is a pure function of the
server and the request, so no other side effect exists at this layer. -/
theorem c6_exactly_one_agent_call (s : VSCodeMCPServer) (f : String → String)
    (r : Request) (a k : String) (hag : s.agent = some f)
    (hact : Request.get r "action" = some a) (hk : actionKey a = some k) :
    Except.map Prod.snd (s.handle_request r) = .ok [instrFor a r] := by
  rw [hr_recognized s f r a k hag hact hk]
  rfl

/-- Witness for C6 at a concrete `explain_code` request. -/
theorem c6_witness :
    Except.map Prod.snd
        ((VSCodeMCPServer.mk (some (fun _ => "t")) "m").handle_request
          [("action", "explain_code"), ("code", "z")]) =
      .ok [instrFor "explain_code" [("action", "explain_code"), ("code", "z")]] :=
  c6_exactly_one_agent_call (VSCodeMCPServer.mk (some (fun _ => "t")) "m")
    (fun _ => "t") [("action", "explain_code"), ("code", "z")] "explain_code"
    "explanation" rfl rfl rfl

/-- C7: two invocations on the identical request, with possibly different
agent behaviors `f` and `g` (the agent is non-deterministic between calls),
each perform their own single agent call on the same rendered instruction and
return responses of the same shape — the same single key `k` determined by
the action — while the reply values `f (instrFor a r)` and `g (instrFor a r)`
may differ. -/
theorem c7_repeat_same_shape (s₁ s₂ : VSCodeMCPServer) (f g : String → String)
    (r : Request) (a k : String) (hag₁ : s₁.agent = some f)
    (hag₂ : s₂.agent = some g) (hact : Request.get r "action" = some a)
    (hk : actionKey a = some k) :
    s₁.handle_request r = .ok ([(k, f (instrFor a r))], [instrFor a r]) ∧
      s₂.handle_request r = .ok ([(k, g (instrFor a r))], [instrFor a r]) :=
  ⟨hr_recognized s₁ f r a k hag₁ hact hk,
    hr_recognized s₂ g r a k hag₂ hact hk⟩

/-- Witness for C7: the same `fix_error` request handled by two agents that
reply differently. -/
theorem c7_witness :
    (VSCodeMCPServer.mk (some (fun _ => "r1")) "m").handle_request
        [("action", "fix_error")] =
      .ok ([("fix",
            (fun _ => "r1") (instrFor "fix_error" [("action", "fix_error")]))],
        [instrFor "fix_error" [("action", "fix_error")]]) ∧
    (VSCodeMCPServer.mk (some (fun _ => "r2")) "m").handle_request
        [("action", "fix_error")] =
      .ok ([("fix",
            (fun _ => "r2") (instrFor "fix_error" [("action", "fix_error")]))],
        [instrFor "fix_error" [("action", "fix_error")]]) :=
  c7_repeat_same_shape (VSCodeMCPServer.mk (some (fun _ => "r1")) "m")
    (VSCodeMCPServer.mk (some (fun _ => "r2")) "m") (fun _ => "r1")
    (fun _ => "r2") [("action", "fix_error")] "fix_error" "fix" rfl rfl rfl rfl

/-- C8: for every request with no `action` key, `handle_request` returns
`[("error", "Unknown action: None")]` — the absent value is interpolated as
the literal text `None` — raising no exception and making no agent call
(empty call trace). -/
theorem c8_absent_action_none_text (s : VSCodeMCPServer) (r : Request)
    (hact : Request.get r "action" = none) :
    s.handle_request r = .ok ([("error", "Unknown action: None")], []) :=
  hr_noaction s r hact

/-- Witness for C8 on a request that holds only a `code` field. -/
theorem c8_witness :
    (VSCodeMCPServer.mk (some (fun _ => "w")) "m").handle_request
        [("code", "q")] =
      .ok ([("error", "Unknown action: None")], []) :=
  c8_absent_action_none_text (VSCodeMCPServer.mk (some (fun _ => "w")) "m")
    [("code", "q")] rfl

/-- C9: on the unrecognized-action and absent-action paths, `handle_request`
succeeds even when the server is uninitialized (`agent = none`): the error
mapping is returned as `.ok` without dereferencing the agent, so the
uninitialized state causes no failure on those paths. -/
theorem c9_uninitialized_error_path (s : VSCodeMCPServer) (r : Request)
    (_hag : s.agent = none)
    (hun : ∀ a, Request.get r "action" = some a → actionKey a = none) :
    s.handle_request r =
      .ok ([("error", "Unknown action: " ++ pyStr (Request.get r "action"))],
        []) := by
  cases h : Request.get r "action" with
  | none => simpa [pyStr] using hr_noaction s r h
  | some a => simpa [pyStr] using hr_unknown s r a h (hun a h)

/-- Witness for C9: an unrecognized action on a server whose agent was never
initialized. -/
theorem c9_witness :
    (VSCodeMCPServer.mk none "m").handle_request [("action", "bogus")] =
      .ok ([("error",
            "Unknown action: " ++
              pyStr (Request.get [("action", "bogus")] "action"))], []) :=
  c9_uninitialized_error_path (VSCodeMCPServer.mk none "m")
    [("action", "bogus")] rfl
    (fun a h => by
      rw [show Request.get [("action", "bogus")] "action" = some "bogus"
        from rfl] at h
      cases h
      rfl)

/-- C10: for every recognized action, the rendered instruction and the
response key depend only on that action's own fields: two requests with the
same action and the same values (or absence) of those fields produce
identical results — in particular identical instructions — regardless of any
other keys in the request mapping. -/
theorem c10_only_relevant_fields (s : VSCodeMCPServer) (f : String → String)
    (r₁ r₂ : Request) (a k : String) (hag : s.agent = some f)
    (hact₁ : Request.get r₁ "action" = some a)
    (hact₂ : Request.get r₂ "action" = some a) (hk : actionKey a = some k)
    (hfields : ∀ fld ∈ relevantFields a,
      Request.get r₁ fld = Request.get r₂ fld) :
    s.handle_request r₁ = s.handle_request r₂ ∧
      s.handle_request r₁ = .ok ([(k, f (instrFor a r₁))], [instrFor a r₁]) := by
  have h₁ := hr_recognized s f r₁ a k hag hact₁ hk
  have h₂ := hr_recognized s f r₂ a k hag hact₂ hk
  have heq : instrFor a r₁ = instrFor a r₂ := by
    rcases actionKey_inv a k hk with ⟨ha, hk2⟩ | ⟨ha, hk2⟩ | ⟨ha, hk2⟩ |
        ⟨ha, hk2⟩ | ⟨ha, hk2⟩ <;> subst ha
    · have hc := hfields "context" (by simp [relevantFields])
      have hcur := hfields "cursor" (by simp [relevantFields])
      simp [instrFor, completeInstr, Request.getD, hc, hcur]
    · have hc := hfields "code" (by simp [relevantFields])
      simp [instrFor, explainInstr, Request.getD, hc]
    · have he := hfields "error" (by simp [relevantFields])
      have hc := hfields "code" (by simp [relevantFields])
      simp [instrFor, fixInstr, Request.getD, he, hc]
    · have hc := hfields "code" (by simp [relevantFields])
      have hg := hfields "goal" (by simp [relevantFields])
      simp [instrFor, refactorInstr, Request.getD, hc, hg]
    · have hc := hfields "code" (by simp [relevantFields])
      have hf := hfields "framework" (by simp [relevantFields])
      simp [instrFor, testsInstr, Request.getD, hc, hf]
  exact ⟨by rw [h₁, h₂, heq], h₁⟩

/-- Witness for C10: two `explain_code` requests agreeing on `code` but
differing in an extra irrelevant `extra` key. -/
theorem c10_witness :
    (VSCodeMCPServer.mk (some (fun _ => "v")) "m").handle_request
        [("action", "explain_code"), ("code", "z")] =
      (VSCodeMCPServer.mk (some (fun _ => "v")) "m").handle_request
        [("action", "explain_code"), ("code", "z"), ("extra", "noise")] ∧
    (VSCodeMCPServer.mk (some (fun _ => "v")) "m").handle_request
        [("action", "explain_code"), ("code", "z")] =
      .ok ([("explanation",
            (fun _ => "v")
              (instrFor "explain_code"
                [("action", "explain_code"), ("code", "z")]))],
        [instrFor "explain_code" [("action", "explain_code"), ("code", "z")]]) :=
  c10_only_relevant_fields (VSCodeMCPServer.mk (some (fun _ => "v")) "m")
    (fun _ => "v") [("action", "explain_code"), ("code", "z")]
    [("action", "explain_code"), ("code", "z"), ("extra", "noise")]
    "explain_code" "explanation" rfl rfl rfl rfl
    (by intro fld hfld
        rw [show relevantFields "explain_code" = ["code"] from rfl] at hfld
        simp only [List.mem_singleton] at hfld
        subst hfld
        rfl)
